import Mathlib

/-!
Verification development for the mzansi-c ride-hailing / delivery backend.

The JavaScript source (Express route handlers over Mongoose documents, with a
Socket.io fan-out layer) is shallowly embedded as pure Lean functions:

* numbers are rationals, timestamps and document ids are naturals;
* each HTTP handler becomes a function from the documents it reads to a typed
  result together with the updated documents;
* the floating-point trigonometric core of the haversine computation in
  src/utils/location.js is not representable exactly, so it is abstracted as an
  explicit raw-distance argument, while every guard, rounding step and
  comparison that surrounds it is embedded exactly as written;
* the Mongoose findById / save pair used by the accept handler is modelled
  twice: as a one-shot function (the handler run in isolation) and as a
  two-phase interleaving model (read step and check-and-save step), which is
  what the source actually does against the store.
-/

/-! ## Location utilities (src/utils/location.js) -/

/-- JavaScript truthiness of an optional numeric field: an absent coordinate,
or a coordinate equal to 0, is falsy. -/
def locTruthy : Option ℚ → Bool
  | none => false
  | some v => decide (v ≠ 0)

/-- A latitude/longitude pair; each component may be absent, as on a
partially-populated Mongoose sub-document. -/
structure Location where
  latitude : Option ℚ
  longitude : Option ℚ
deriving DecidableEq, Repr

/-- Math.round(x * 100) / 100, the final line of calculateDistance. -/
def round2 (q : ℚ) : ℚ := ((round (q * 100) : ℤ) : ℚ) / 100

/-- Math.round(x * 10) / 10, used by the rating utilities in the repository. -/
def round1 (q : ℚ) : ℚ := ((round (q * 10) : ℤ) : ℚ) / 10

/-- The guard at the top of calculateDistance:
if (!location1 || !location2 || !location1.latitude || !location1.longitude ||
    !location2.latitude || !location2.longitude) return 0. -/
def coordsOk : Option Location → Option Location → Bool
  | some a, some b =>
      locTruthy a.latitude && locTruthy a.longitude &&
      locTruthy b.latitude && locTruthy b.longitude
  | _, _ => false

/-- calculateDistance from src/utils/location.js.  The argument raw stands for
the floating-point haversine value R * c (Earth radius 6371 km) computed by
the trigonometric core; the guard and the rounding are embedded exactly. -/
def calculateDistance (raw : ℚ) (location1 location2 : Option Location) : ℚ :=
  if coordsOk location1 location2 then round2 raw else 0

/-- An element of the candidate pool passed to findNearestLocations. -/
structure Candidate where
  userId : Nat
  latitude : Option ℚ
  longitude : Option ℚ
deriving DecidableEq, Repr

/-- The location object built from a candidate inside findNearestLocations. -/
def candLoc (c : Candidate) : Location := ⟨c.latitude, c.longitude⟩

/-- One insertion step of the ascending-by-distance sort. -/
def insertByDistance (p : Candidate × ℚ) : List (Candidate × ℚ) → List (Candidate × ℚ)
  | [] => [p]
  | q :: qs => if p.2 ≤ q.2 then p :: q :: qs else q :: insertByDistance p qs

/-- The sort((a, b) => a.distance - b.distance) call, modelled as a stable
insertion sort ascending by the distance component. -/
def sortByDistance : List (Candidate × ℚ) → List (Candidate × ℚ)
  | [] => []
  | p :: ps => insertByDistance p (sortByDistance ps)

/-- findNearestLocations from src/utils/location.js: map each candidate to a
pair with its calculateDistance value, keep those with distance at most
maxDistanceKm, and sort ascending.  rawDist abstracts the haversine core as a
function of the two points. -/
def findNearestLocations (rawDist : Location → Location → ℚ)
    (locations : List Candidate) (targetLocation : Option Location)
    (maxDistanceKm : ℚ) : List (Candidate × ℚ) :=
  match targetLocation with
  | none => []
  | some t =>
      sortByDistance ((locations.map fun loc =>
        (loc, calculateDistance (rawDist t (candLoc loc)) (some t) (some (candLoc loc)))).filter
          fun p => decide (p.2 ≤ maxDistanceKm))

theorem mem_insertByDistance {a p : Candidate × ℚ} {l : List (Candidate × ℚ)} :
    a ∈ insertByDistance p l ↔ a = p ∨ a ∈ l := by
  induction l with
  | nil => simp [insertByDistance]
  | cons q qs ih =>
      by_cases h : p.2 ≤ q.2
      · simp [insertByDistance, h]
      · simp [insertByDistance, h, ih]
        tauto

theorem mem_sortByDistance {a : Candidate × ℚ} {l : List (Candidate × ℚ)} :
    a ∈ sortByDistance l ↔ a ∈ l := by
  induction l with
  | nil => simp [sortByDistance]
  | cons p ps ih => simp [sortByDistance, mem_insertByDistance, ih]

/-! ## Concrete data for the geospatial claims -/

/-- Origin used in the rounding counterexample. -/
def targetC8 : Location := ⟨some 1, some 1⟩

/-- A fully-located candidate used in the rounding counterexample. -/
def candC8 : Candidate := ⟨3, some 2, some 2⟩

/-- A raw haversine value of 10.004 km, strictly beyond a 10 km radius but
rounding to 10.00. -/
def rawDistC8 : Location → Location → ℚ := fun _ _ => 10 + 1/250

/-- Candidate for the boundary witness. -/
def candW8 : Candidate := ⟨4, some 3, some 4⟩

/-- Raw haversine value of exactly 10 km for the boundary witness. -/
def rawDistW8 : Location → Location → ℚ := fun _ _ => 10

theorem coordsOk_C8 : coordsOk (some targetC8) (some (candLoc candC8)) = true := by
  simp [coordsOk, locTruthy, targetC8, candC8, candLoc]

/-- Claim C8 (counterexample): the claim says the radius filter compares the
full-precision haversine distance with the radius and that 2-decimal rounding
is display-only.  In the source, calculateDistance itself rounds to 2 decimals
and findNearestLocations filters on that rounded value: a candidate whose raw
great-circle distance is 10.004 km is included in a 10 km query even though
its full-precision distance exceeds the radius. -/
theorem C8_counterexample :
    findNearestLocations rawDistC8 [candC8] (some targetC8) 10 = [(candC8, 10)] ∧
      ¬ rawDistC8 targetC8 (candLoc candC8) ≤ 10 := by
  have hr : round2 (10 + 1/250) = 10 := by
    unfold round2
    rw [round_eq]
    norm_num
  have hd : calculateDistance (rawDistC8 targetC8 (candLoc candC8)) (some targetC8)
      (some (candLoc candC8)) = 10 := by
    unfold calculateDistance
    rw [if_pos coordsOk_C8]
    exact hr
  constructor
  · show sortByDistance _ = _
    rw [show [candC8].map (fun loc =>
        (loc, calculateDistance (rawDistC8 targetC8 (candLoc loc)) (some targetC8)
          (some (candLoc loc)))) = [(candC8, (10 : ℚ))] by simp [hd]]
    norm_num [List.filter, sortByDistance, insertByDistance]
  · show ¬ (10 + 1/250 : ℚ) ≤ 10
    norm_num

/-- Claim C8 (amended): a located candidate is included by findNearestLocations
if and only if the 2-decimal rounding of its raw great-circle distance is at
most the radius, boundary inclusive; the rounding happens inside
calculateDistance, before the radius filter, not merely for display. -/
theorem C8_rounded_boundary (rawDist : Location → Location → ℚ)
    (locations : List Candidate) (t : Location) (radius : ℚ) (cand : Candidate)
    (hmem : cand ∈ locations)
    (hok : coordsOk (some t) (some (candLoc cand)) = true) :
    (cand, round2 (rawDist t (candLoc cand))) ∈
        findNearestLocations rawDist locations (some t) radius ↔
      round2 (rawDist t (candLoc cand)) ≤ radius := by
  unfold findNearestLocations
  rw [mem_sortByDistance]
  constructor
  · intro h
    have h2 := (List.mem_filter.mp h).2
    exact of_decide_eq_true h2
  · intro h
    refine List.mem_filter.mpr ⟨?_, by simpa using h⟩
    refine List.mem_map.mpr ⟨cand, hmem, ?_⟩
    simp [calculateDistance, hok]

/-- Witness for C8_rounded_boundary: a candidate whose raw distance is exactly
10 km (rounding to itself) is included at radius 10 km, boundary inclusive. -/
theorem C8_rounded_boundary_witness :
    (candW8, round2 (rawDistW8 targetC8 (candLoc candW8))) ∈
      findNearestLocations rawDistW8 [candW8] (some targetC8) 10 :=
  (C8_rounded_boundary rawDistW8 [candW8] targetC8 10 candW8
    (by simp)
    (by simp [coordsOk, locTruthy, targetC8, candW8, candLoc])).mpr
    (by unfold round2 rawDistW8; rw [round_eq]; norm_num)

/-- Claim C10: calculateDistance returns 0 whenever either location argument is
absent or any of the four coordinates is missing or equal to 0 (the guard
tests JavaScript truthiness of each coordinate), and consequently a candidate
whose latitude or longitude is absent or exactly 0 is reported at distance 0
by findNearestLocations and passes every non-negative radius filter. -/
theorem C10_zero_guard :
    (∀ (raw : ℚ) (l : Option Location),
        calculateDistance raw none l = 0 ∧ calculateDistance raw l none = 0) ∧
    (∀ (raw : ℚ) (a b : Location),
        a.latitude = none ∨ a.latitude = some 0 ∨
        a.longitude = none ∨ a.longitude = some 0 ∨
        b.latitude = none ∨ b.latitude = some 0 ∨
        b.longitude = none ∨ b.longitude = some 0 →
        calculateDistance raw (some a) (some b) = 0) ∧
    (∀ (rawDist : Location → Location → ℚ) (locations : List Candidate)
        (t : Location) (radius : ℚ) (cand : Candidate),
        cand ∈ locations →
        cand.latitude = none ∨ cand.latitude = some 0 ∨
          cand.longitude = none ∨ cand.longitude = some 0 →
        0 ≤ radius →
        (cand, 0) ∈ findNearestLocations rawDist locations (some t) radius) := by
  refine ⟨?_, ?_, ?_⟩
  · intro raw l
    constructor
    · simp [calculateDistance, coordsOk]
    · cases l <;> simp [calculateDistance, coordsOk]
  · intro raw a b h
    have : coordsOk (some a) (some b) = false := by
      rcases h with h | h | h | h | h | h | h | h <;>
        simp [coordsOk, locTruthy, h]
    simp [calculateDistance, this]
  · intro rawDist locations t radius cand hmem hbad hr
    have hzero : calculateDistance (rawDist t (candLoc cand)) (some t)
        (some (candLoc cand)) = 0 := by
      have : coordsOk (some t) (some (candLoc cand)) = false := by
        rcases hbad with h | h | h | h <;>
          simp [coordsOk, locTruthy, candLoc, h]
      simp [calculateDistance, this]
    unfold findNearestLocations
    rw [mem_sortByDistance]
    refine List.mem_filter.mpr ⟨?_, by simpa using hr⟩
    refine List.mem_map.mpr ⟨cand, hmem, ?_⟩
    rw [hzero]

/-- A candidate sitting exactly on the zero meridian: longitude 0. -/
def candZeroLon : Candidate := ⟨6, some (-26), some 0⟩

/-- Witness for C10_zero_guard: a candidate with longitude exactly 0 is
reported at distance 0 and is included at radius 10 even though its raw
great-circle distance is modelled as 9000 km. -/
theorem C10_zero_guard_witness :
    calculateDistance 9000 none (some targetC8) = 0 ∧
    calculateDistance 9000 (some (candLoc candZeroLon)) (some targetC8) = 0 ∧
    (candZeroLon, 0) ∈
      findNearestLocations (fun _ _ => 9000) [candZeroLon] (some targetC8) 10 := by
  refine ⟨(C10_zero_guard.1 9000 (some targetC8)).1, ?_, ?_⟩
  · exact C10_zero_guard.2.1 9000 (candLoc candZeroLon) targetC8
      (by simp [candLoc, candZeroLon])
  · exact C10_zero_guard.2.2 (fun _ _ => 9000) [candZeroLon] targetC8 10 candZeroLon
      (by simp) (by simp [candZeroLon]) (by norm_num)

/-! ## Trip data model (Ride documents, part_012 and src/routes/auth.js) -/

/-- Ride statuses accepted by the update-status validator, plus pending. -/
inductive RideStatus
  | pending
  | accepted
  | driver_arrived
  | in_progress
  | completed
  | cancelled
deriving DecidableEq, Repr

/-- completed and cancelled are the terminal ride statuses of the declared
status graph. -/
def isTerminal : RideStatus → Bool
  | .completed => true
  | .cancelled => true
  | _ => false

/-- One entry of ride.sosContactsNotified. -/
structure NotifiedContact where
  name : String
  phone : String
  notifiedAt : Nat
deriving DecidableEq, Repr

/-- The fields of a Ride document that the embedded handlers read or write.
riderStars models rating.rider.stars. -/
structure Ride where
  id : Nat
  rider : Nat
  driver : Option Nat
  status : RideStatus
  fare : ℚ
  finalFare : Option ℚ
  startedAt : Option Nat
  completedAt : Option Nat
  cancelledAt : Option Nat
  cancellationReason : Option String
  riderStars : Option Nat
  sosActivated : Bool
  sosActivatedAt : Option Nat
  sosLocation : Option Location
  sosContactsNotified : List NotifiedContact
deriving DecidableEq, Repr

/-- Loyalty tiers (src/routes/security.js). -/
inductive Tier
  | bronze
  | silver
  | gold
  | platinum
deriving DecidableEq, Repr

/-- user.loyalty sub-document. -/
structure Loyalty where
  points : ℚ
  tier : Tier
  totalSpent : ℚ
  lastActivity : Option Nat
deriving DecidableEq, Repr

/-- One entry of user.trustedContacts. -/
structure TrustedContact where
  name : String
  phone : String
  canTrackTrips : Bool
deriving DecidableEq, Repr

/-- The fields of a User document that the embedded handlers read or write.
emergencyNum and policeNum model emergencyContacts.emergency and
emergencyContacts.police; averageRating models driverInfo.averageRating. -/
structure User where
  id : Nat
  loyalty : Option Loyalty
  emergencyNum : Option String
  policeNum : Option String
  trustedContacts : List TrustedContact
  averageRating : Option ℚ
deriving DecidableEq, Repr

/-! ## PUT /api/rides/:id/accept (part_012) -/

/-- Typed outcome of the accept handler (the not-found branch is elided: the
embedding takes the ride document itself). alreadyAccepted is the duplicate
request no-op success; conflictDriver is the 400 carrying currentStatus and
currentDriver; conflictStatus is the 400 carrying currentStatus and rideId. -/
inductive AcceptResult
  | alreadyAccepted (ride : Ride)
  | conflictDriver (message : String) (currentStatus : RideStatus) (currentDriver : Nat)
  | conflictStatus (message : String) (currentStatus : RideStatus) (rideId : Nat)
  | success (ride : Ride)
deriving DecidableEq, Repr

/-- The status-specific error message chosen by the accept handler when the
ride is not pending. -/
def notAvailableMsg : RideStatus → String
  | .accepted => "Ride has already been accepted by another driver"
  | .cancelled => "Ride has been cancelled"
  | .completed => "Ride has already been completed"
  | .in_progress => "Ride is already in progress"
  | _ => "Ride is not available"

/-- The accept handler body run in isolation over the document it read:
same-driver duplicate is a no-op success; a different assigned driver is a
conflict carrying status and driver id; a non-pending unassigned ride is a
conflict carrying status and ride id; otherwise assign the caller and advance
to accepted.  Returns the response and the saved document. -/
def acceptRide (ride : Ride) (callerId : Nat) : AcceptResult × Ride :=
  match ride.driver with
  | some d =>
      if d = callerId then (.alreadyAccepted ride, ride)
      else (.conflictDriver "Ride already has a driver" ride.status d, ride)
  | none =>
      if ride.status = .pending then
        let ride' := { ride with driver := some callerId, status := .accepted }
        (.success ride', ride')
      else
        (.conflictStatus (notAvailableMsg ride.status) ride.status ride.id, ride)

/-- The worker id carried by a conflict response, when one is carried. -/
def conflictWorkerId : AcceptResult → Option Nat
  | .conflictDriver _ _ d => some d
  | _ => none

/-- Whether the response reports a fresh assignment. -/
def isSuccess : AcceptResult → Bool
  | .success _ => true
  | _ => false

/-- Serialized accepts: each call runs its read, checks and save atomically,
one after the other, against the evolving document. -/
def acceptSeq (ride : Ride) : List Nat → List AcceptResult × Ride
  | [] => ([], ride)
  | c :: cs =>
      let res := acceptRide ride c
      let rest := acceptSeq res.2 cs
      (res.1 :: rest.1, rest.2)

/-! ## The accept race against the store (findById followed by save)

The handler reads the document with findById, runs its checks on the copy in
memory, and then writes with save.  The two store interactions are modelled as
two separate steps so that calls can interleave, exactly as independent
requests do against the backing store. -/

/-- The part of the stored trip document the accept race reads and writes. -/
structure StoreDoc where
  status : RideStatus
  driver : Option Nat
deriving DecidableEq, Repr

/-- Progress of one in-flight accept call: before its read, after its read
(holding the snapshot), or finished with an HTTP success/conflict. -/
inductive CallPhase
  | ready
  | readDone (snap : StoreDoc)
  | finished (success : Bool)
deriving DecidableEq, Repr

/-- The store plus every in-flight accept call (worker id and phase). -/
structure RaceState where
  store : StoreDoc
  calls : List (Nat × CallPhase)
deriving DecidableEq, Repr

/-- Advance call i by one step: its findById read, or its check-and-save.
The checks run on the snapshot the call read earlier, not on the current
store — this is the read-then-write structure of the handler. -/
def raceStep (st : RaceState) (i : Nat) : RaceState :=
  match st.calls[i]? with
  | none => st
  | some (w, phase) =>
      match phase with
      | .ready => { st with calls := st.calls.set i (w, .readDone st.store) }
      | .readDone snap =>
          match snap.driver with
          | some d =>
              if d = w then { st with calls := st.calls.set i (w, .finished true) }
              else { st with calls := st.calls.set i (w, .finished false) }
          | none =>
              if snap.status = .pending then
                { store := ⟨.accepted, some w⟩, calls := st.calls.set i (w, .finished true) }
              else { st with calls := st.calls.set i (w, .finished false) }
      | .finished _ => st

/-- Run a schedule: at each tick the named call takes its next step. -/
def raceRun (st : RaceState) (sched : List Nat) : RaceState :=
  sched.foldl raceStep st

/-- How many of the calls finished with an HTTP success. -/
def raceSuccessCount (st : RaceState) : Nat :=
  st.calls.countP fun c => decide (c.2 = CallPhase.finished true)

/-- Two accept calls by workers 1 and 2 on the same pending, unassigned trip. -/
def raceInit : RaceState := ⟨⟨.pending, none⟩, [(1, .ready), (2, .ready)]⟩

/-! ## Accept-path lemmas and concrete rides -/

/-- A fresh pending, unassigned ride document with the given id and rider. -/
def baseRide (id rider : Nat) : Ride :=
  { id := id, rider := rider, driver := none, status := .pending, fare := 50,
    finalFare := none, startedAt := none, completedAt := none, cancelledAt := none,
    cancellationReason := none, riderStars := none, sosActivated := false,
    sosActivatedAt := none, sosLocation := none, sosContactsNotified := [] }

theorem acceptRide_assigned_other {r : Ride} {c x : Nat} (hr : r.driver = some c)
    (hx : x ≠ c) :
    acceptRide r x = (.conflictDriver "Ride already has a driver" r.status c, r) := by
  unfold acceptRide
  rw [hr]
  exact if_neg fun h => hx h.symm

theorem acceptRide_pending {r : Ride} {c : Nat} (hd : r.driver = none)
    (hs : r.status = .pending) :
    acceptRide r c =
      (.success { r with driver := some c, status := .accepted },
        { r with driver := some c, status := .accepted }) := by
  unfold acceptRide
  rw [hd, if_pos hs]

theorem acceptSeq_assigned_conflicts (c : Nat) :
    ∀ (cs : List Nat) (r : Ride), r.driver = some c → (∀ x ∈ cs, x ≠ c) →
      (acceptSeq r cs).1.countP isSuccess = 0 ∧ (acceptSeq r cs).2 = r := by
  intro cs
  induction cs with
  | nil => intro r _ _; exact ⟨rfl, rfl⟩
  | cons x xs ih =>
      intro r hr hx
      have hxc : x ≠ c := hx x (List.mem_cons_self x xs)
      have hstep := acceptRide_assigned_other hr hxc
      have ihr := ih r hr fun y hy => hx y (List.mem_cons_of_mem x hy)
      constructor
      · show ((acceptRide r x).1 :: (acceptSeq (acceptRide r x).2 xs).1).countP isSuccess = 0
        rw [hstep]
        simp [List.countP_cons, isSuccess, ihr.1]
      · show (acceptSeq (acceptRide r x).2 xs).2 = r
        rw [hstep]
        exact ihr.2

/-- Claim C1 (counterexample): the accept handler reads the trip with findById
and writes with save, a separate read followed by a write, not an atomic
conditional update.  Under the interleaving read(1), read(2), save(1), save(2)
of two accept calls on the same pending unassigned trip, both calls observe
the pending snapshot and both finish with a success, so the claimed
one-success-and-one-conflict outcome fails, and the second write silently
overwrites the first assignment. -/
theorem C1_counterexample :
    raceSuccessCount (raceRun raceInit [0, 1, 0, 1]) = 2 ∧
      (raceRun raceInit [0, 1, 0, 1]).store.driver = some 2 := by
  exact ⟨rfl, rfl⟩

/-- Claim C1 (amended): when accept calls on the same trip are serialized —
each call's read, checks and save run as one uninterrupted block — exactly one
of N accepts by pairwise different workers succeeds: the first caller wins,
every later caller receives a conflict, and the trip ends assigned to the
first caller.  The implementation itself achieves this only under such
serialization; it does not perform the check and the write as one atomic
store operation. -/
theorem C1_serialized_exactly_one (r : Ride) (c : Nat) (cs : List Nat)
    (hp : r.status = .pending) (hd : r.driver = none) (hne : ∀ x ∈ cs, x ≠ c) :
    (acceptSeq r (c :: cs)).1.countP isSuccess = 1 ∧
      (acceptSeq r (c :: cs)).2.driver = some c ∧
      (acceptSeq r (c :: cs)).2.status = .accepted := by
  have hacc := acceptRide_pending (c := c) hd hp
  have h2 := acceptSeq_assigned_conflicts c cs
    { r with driver := some c, status := .accepted } rfl hne
  refine ⟨?_, ?_, ?_⟩
  · show ((acceptRide r c).1 :: (acceptSeq (acceptRide r c).2 cs).1).countP isSuccess = 1
    rw [hacc]
    simp [List.countP_cons, isSuccess, h2.1]
  · show (acceptSeq (acceptRide r c).2 cs).2.driver = some c
    rw [hacc, h2.2]
  · show (acceptSeq (acceptRide r c).2 cs).2.status = .accepted
    rw [hacc, h2.2]

/-- Pending ride used by the serialized-accept witness. -/
def rideW1 : Ride := baseRide 11 1

/-- Witness for C1_serialized_exactly_one: three serialized accepts by workers
7, 8, 9 on a pending trip yield one success and leave the trip with worker 7. -/
theorem C1_serialized_exactly_one_witness :
    (acceptSeq rideW1 [7, 8, 9]).1.countP isSuccess = 1 ∧
      (acceptSeq rideW1 [7, 8, 9]).2.driver = some 7 ∧
      (acceptSeq rideW1 [7, 8, 9]).2.status = .accepted :=
  C1_serialized_exactly_one rideW1 7 [8, 9] rfl rfl (by decide)

/-! ## PUT /api/deliveries/:id/accept (src/routes/auth.js)

The delivery accept handler differs from the ride one: it has no same-courier
early return, so a repeated accept by the already-assigned courier falls past
the different-courier check into the status check; and its non-pending
conflict payload carries only the current status — no trip id.  (The
only-couriers 403 and the not-found 404 sit upstream of the embedded body,
like the driver-role middleware on the ride route.) -/

/-- Delivery statuses accepted by the delivery update-status validator, plus
pending. -/
inductive DeliveryStatus
  | pending
  | accepted
  | picked_up
  | in_transit
  | delivered
  | cancelled
deriving DecidableEq, Repr

/-- The fields of a Delivery document that the accept handler reads or
writes. -/
structure Delivery where
  id : Nat
  customer : Nat
  courier : Option Nat
  status : DeliveryStatus
deriving DecidableEq, Repr

/-- Typed outcome of the delivery accept handler: conflictCourier is the 400
carrying currentStatus and currentCourier; conflictStatus is the 400 carrying
currentStatus alone. -/
inductive DeliveryAcceptResult
  | conflictCourier (message : String) (currentStatus : DeliveryStatus) (currentCourier : Nat)
  | conflictStatus (message : String) (currentStatus : DeliveryStatus)
  | success (delivery : Delivery)
deriving DecidableEq, Repr

/-- The status check and assignment that control reaches when the
different-courier guard does not fire. -/
def acceptDeliveryTail (d : Delivery) (callerId : Nat) : DeliveryAcceptResult × Delivery :=
  if d.status = .pending then
    let d' := { d with courier := some callerId, status := .accepted }
    (.success d', d')
  else
    (.conflictStatus "Delivery is not available" d.status, d)

/-- The delivery accept handler body run in isolation over the document it
read: the only early return is the different-courier conflict (carrying the
courier id); everything else — including a repeated accept by the assigned
courier, whose delivery is no longer pending — goes through the status check
and, when not pending, gets the status-only conflict. -/
def acceptDelivery (d : Delivery) (callerId : Nat) : DeliveryAcceptResult × Delivery :=
  match d.courier with
  | some c =>
      if c ≠ callerId then
        (.conflictCourier "Delivery already has a courier" d.status c, d)
      else acceptDeliveryTail d callerId
  | none => acceptDeliveryTail d callerId

/-! ## Claims C3 and C6 about the accept handlers -/

/-- A cancelled ride that never had a driver assigned. -/
def rideC3 : Ride := { baseRide 5 1 with status := .cancelled }

/-- A delivery already accepted by courier 9. -/
def deliveryC3 : Delivery := { id := 81, customer := 2, courier := some 9, status := .accepted }

/-- Claim C3 (counterexample): two refutations at concrete inputs.  For a
non-pending, unassigned ride the accept conflict carries the current status
together with the ride id — no worker id, none being assigned.  And on the
delivery side the claimed idempotent no-op success does not exist: courier 9,
who already won delivery 81, accepts it again and receives the 400 conflict
"Delivery is not available" whose payload carries only the current status —
neither a success, nor a worker id, nor a trip id. -/
theorem C3_counterexample :
    (acceptRide rideC3 9 =
      (.conflictStatus "Ride has been cancelled" .cancelled 5, rideC3) ∧
      rideC3.driver = none ∧
      conflictWorkerId (acceptRide rideC3 9).1 = none) ∧
    (deliveryC3.courier = some 9 ∧
      acceptDelivery deliveryC3 9 =
        (.conflictStatus "Delivery is not available" .accepted, deliveryC3)) :=
  ⟨⟨rfl, rfl, rfl⟩, rfl, rfl⟩

/-- Claim C3 (amended): the two accept handlers behave differently.  Rides: a
repeated accept by the already-assigned driver is a no-op success returning
the ride unchanged; an accept while a different driver is assigned fails with
a conflict carrying the current status and the assigned driver's id; an accept
on a non-pending unassigned ride fails with a conflict carrying the current
status and the ride id.  Deliveries: only the different-courier conflict
carries the assigned worker's id (with the current status); every other
non-pending accept — including a repeated accept by the already-assigned
courier — fails with "Delivery is not available" carrying only the current
status, so the delivery handler has no idempotent no-op success. -/
theorem C3_conditional_accept (r : Ride) (d : Delivery) (callerId : Nat) :
    (r.driver = some callerId → acceptRide r callerId = (.alreadyAccepted r, r)) ∧
    (∀ w, r.driver = some w → w ≠ callerId →
      acceptRide r callerId =
        (.conflictDriver "Ride already has a driver" r.status w, r)) ∧
    (r.driver = none → r.status ≠ .pending →
      acceptRide r callerId =
        (.conflictStatus (notAvailableMsg r.status) r.status r.id, r)) ∧
    (∀ c, d.courier = some c → c ≠ callerId →
      acceptDelivery d callerId =
        (.conflictCourier "Delivery already has a courier" d.status c, d)) ∧
    (d.courier = some callerId → d.status ≠ .pending →
      acceptDelivery d callerId =
        (.conflictStatus "Delivery is not available" d.status, d)) ∧
    (d.courier = none → d.status ≠ .pending →
      acceptDelivery d callerId =
        (.conflictStatus "Delivery is not available" d.status, d)) := by
  refine ⟨?_, ?_, ?_, ?_, ?_, ?_⟩
  · intro h
    unfold acceptRide
    rw [h]
    exact if_pos rfl
  · intro w h hw
    exact acceptRide_assigned_other h (Ne.symm hw)
  · intro h hs
    unfold acceptRide
    rw [h, if_neg hs]
  · intro c h hc
    unfold acceptDelivery
    rw [h]
    dsimp only
    rw [if_pos hc]
  · intro h hs
    unfold acceptDelivery
    rw [h]
    dsimp only
    rw [if_neg (not_not_intro rfl)]
    unfold acceptDeliveryTail
    rw [if_neg hs]
  · intro h hs
    unfold acceptDelivery
    rw [h]
    dsimp only
    unfold acceptDeliveryTail
    rw [if_neg hs]

/-- An accepted ride assigned to worker 9. -/
def rideW3a : Ride := { baseRide 21 1 with driver := some 9, status := .accepted }

/-- A completed ride that never had a driver assigned. -/
def rideW3c : Ride := { baseRide 23 1 with status := .completed }

/-- A delivery already accepted by courier 9, for the witness. -/
def deliveryW3 : Delivery := { id := 82, customer := 2, courier := some 9, status := .accepted }

/-- A cancelled delivery that never had a courier. -/
def deliveryW3n : Delivery := { id := 83, customer := 2, courier := none, status := .cancelled }

/-- Witness for C3_conditional_accept, exercising all six branches. -/
theorem C3_conditional_accept_witness :
    acceptRide rideW3a 9 = (.alreadyAccepted rideW3a, rideW3a) ∧
    acceptRide rideW3a 4 =
      (.conflictDriver "Ride already has a driver" .accepted 9, rideW3a) ∧
    acceptRide rideW3c 4 =
      (.conflictStatus "Ride has already been completed" .completed 23, rideW3c) ∧
    acceptDelivery deliveryW3 4 =
      (.conflictCourier "Delivery already has a courier" .accepted 9, deliveryW3) ∧
    acceptDelivery deliveryW3 9 =
      (.conflictStatus "Delivery is not available" .accepted, deliveryW3) ∧
    acceptDelivery deliveryW3n 4 =
      (.conflictStatus "Delivery is not available" .cancelled, deliveryW3n) :=
  ⟨(C3_conditional_accept rideW3a deliveryW3 9).1 rfl,
   (C3_conditional_accept rideW3a deliveryW3 4).2.1 9 rfl (by decide),
   (C3_conditional_accept rideW3c deliveryW3 4).2.2.1 rfl (by decide),
   (C3_conditional_accept rideW3a deliveryW3 4).2.2.2.1 9 rfl (by decide),
   (C3_conditional_accept rideW3a deliveryW3 9).2.2.2.2.1 rfl (by decide),
   (C3_conditional_accept rideW3a deliveryW3n 4).2.2.2.2.2 rfl (by decide)⟩

/-- First pending ride for the one-active-trip claim. -/
def rideA6 : Ride := baseRide 31 1

/-- Second pending ride for the one-active-trip claim. -/
def rideB6 : Ride := baseRide 32 2

/-- Claim C6 (counterexample): worker 9 accepts ride 31, which is then active
(non-terminal) and assigned to 9; the accept handler nevertheless lets the
same worker accept ride 32 as well, because it inspects only the target trip
and never the caller's other trips — so a worker can hold two active trips at
once and the claimed invariant fails. -/
theorem C6_counterexample :
    acceptRide rideA6 9 =
      (.success { rideA6 with driver := some 9, status := .accepted },
        { rideA6 with driver := some 9, status := .accepted }) ∧
    isTerminal (acceptRide rideA6 9).2.status = false ∧
    acceptRide rideB6 9 =
      (.success { rideB6 with driver := some 9, status := .accepted },
        { rideB6 with driver := some 9, status := .accepted }) ∧
    isTerminal (acceptRide rideB6 9).2.status = false :=
  ⟨rfl, rfl, rfl, rfl⟩

/-- Claim C6 (amended): the accept handler refuses an accept only from the
state of the target trip itself; any worker can accept any pending unassigned
trip, regardless of other trips it already holds, and both trips then sit
assigned to that worker in a non-terminal status. -/
theorem C6_accept_ignores_other_trips (r1 r2 : Ride) (w : Nat)
    (h1s : r1.status = .pending) (h1d : r1.driver = none)
    (h2s : r2.status = .pending) (h2d : r2.driver = none) :
    ∃ r1' r2',
      acceptRide r1 w = (.success r1', r1') ∧
      acceptRide r2 w = (.success r2', r2') ∧
      r1'.driver = some w ∧ r2'.driver = some w ∧
      isTerminal r1'.status = false ∧ isTerminal r2'.status = false :=
  ⟨_, _, acceptRide_pending h1d h1s, acceptRide_pending h2d h2s,
    rfl, rfl, rfl, rfl⟩

/-- Witness for C6_accept_ignores_other_trips at the two concrete rides. -/
theorem C6_accept_ignores_other_trips_witness :
    ∃ r1' r2',
      acceptRide rideA6 5 = (.success r1', r1') ∧
      acceptRide rideB6 5 = (.success r2', r2') ∧
      r1'.driver = some 5 ∧ r2'.driver = some 5 ∧
      isTerminal r1'.status = false ∧ isTerminal r2'.status = false :=
  C6_accept_ignores_other_trips rideA6 rideB6 5 rfl rfl rfl rfl

/-! ## PUT /api/rides/:id/update-status and /cancel (part_012) -/

/-- Typed errors returned by the embedded handlers. -/
inductive ApiErr
  | validation
  | accessDenied (message : String)
  | badRequest (message : String)
  | notFound (message : String)
deriving DecidableEq, Repr

/-- ride.finalFare || ride.fare: a present, non-zero finalFare wins, otherwise
the original fare (0 is falsy in JavaScript). -/
def fareUsed (r : Ride) : ℚ :=
  match r.finalFare with
  | some f => if f = 0 then r.fare else f
  | none => r.fare

/-- Math.floor(fare / 10) * 10, the loyalty points granted on completion. -/
def loyaltyAward (r : Ride) : ℤ := ⌊fareUsed r / 10⌋ * 10

/-- The completion-block update of the rider's user document: add the award to
loyalty.points and stamp loyalty.lastActivity; a user without a loyalty
sub-document is left untouched.  Nothing else on the loyalty sub-document is
written: totalSpent and tier keep their values. -/
def creditPoints (u : User) (r : Ride) (t : Nat) : User :=
  match u.loyalty with
  | some l =>
      { u with loyalty := some { l with
          points := l.points + (loyaltyAward r : ℚ),
          lastActivity := some t } }
  | none => u

/-- The update-status handler: the express-validator step admits every status
except pending; permission requires the assigned driver, the rider, or an
admin; then the status is overwritten unconditionally and each timestamp
guard fires only when its timestamp is still unset.  The loyalty block runs
only inside the completed guard and only when the caller is the rider.
Returns the saved ride and the possibly-rewritten rider user document. -/
def updateRideStatus (ride : Ride) (rider : Option User) (callerId : Nat)
    (callerIsAdmin : Bool) (newStatus : RideStatus) (t : Nat) :
    Except ApiErr (Ride × Option User) :=
  if newStatus = .pending then .error .validation
  else if ¬ (ride.driver = some callerId ∨ ride.rider = callerId ∨ callerIsAdmin = true) then
    .error (.accessDenied "Access denied")
  else
    let isRider := ride.rider = callerId
    let r1 := { ride with status := newStatus }
    let r2 :=
      if newStatus = .in_progress ∧ r1.startedAt = none then
        { r1 with startedAt := some t }
      else r1
    let doAward := newStatus = .completed ∧ r2.completedAt = none ∧ isRider
    let r3 :=
      if newStatus = .completed ∧ r2.completedAt = none then
        { r2 with completedAt := some t }
      else r2
    let rider' := if doAward then rider.map fun u => creditPoints u ride t else rider
    let r4 :=
      if newStatus = .cancelled ∧ r3.cancelledAt = none then
        { r3 with cancelledAt := some t }
      else r3
    .ok (r4, rider')

/-- The cancel handler: permission as for update-status; refuses only when the
ride is completed; otherwise sets status to cancelled, overwrites cancelledAt,
and stores the reason (empty or absent reason falls back to the default). -/
def cancelRide (ride : Ride) (callerId : Nat) (callerIsAdmin : Bool)
    (reason : Option String) (t : Nat) : Except ApiErr Ride :=
  if ¬ (ride.rider = callerId ∨ ride.driver = some callerId ∨ callerIsAdmin = true) then
    .error (.accessDenied "Access denied")
  else if ride.status = .completed then
    .error (.badRequest "Cannot cancel a completed ride")
  else
    .ok { ride with
      status := .cancelled,
      cancelledAt := some t,
      cancellationReason := some (match reason with
        | some s => if s = "" then "Cancelled by user" else s
        | none => "Cancelled by user") }

/-! ## Claim C2: the status graph -/

/-- A fresh loyalty sub-document: no points, bronze, nothing spent. -/
def riderLoyalty : Loyalty :=
  { points := 0, tier := .bronze, totalSpent := 0, lastActivity := none }

/-- A rider user document with a fresh loyalty sub-document. -/
def riderU : User :=
  { id := 1, loyalty := some riderLoyalty,
    emergencyNum := none, policeNum := none, trustedContacts := [],
    averageRating := none }

/-- A completed ride, its completion already timestamped. -/
def rideDone : Ride :=
  { baseRide 41 1 with
      driver := some 9, status := .completed, completedAt := some 3 }

/-- Claim C2 (counterexample): ride 41 is completed — a terminal status — yet
an update-status call by its rider requesting the status accepted succeeds and
moves the ride back to accepted, because the handler validates only membership
in the status enum and the caller's permission, never the transition edge. -/
theorem C2_counterexample :
    rideDone.status = .completed ∧
    updateRideStatus rideDone (some riderU) 1 false .accepted 7 =
      .ok ({ rideDone with status := .accepted }, some riderU) ∧
    ({ rideDone with status := .accepted } : Ride).status = .accepted :=
  ⟨rfl, rfl, rfl⟩

/-- Claim C2 (amended): the update-status handler enforces no transition
graph: for an authorized caller it sets any requested status other than
pending — including from the terminal statuses completed and cancelled — and
always answers ok; the only terminal-status protection in the pair of
handlers is that cancel refuses a ride whose status is completed. -/
theorem C2_no_transition_validation :
    (∀ (ride : Ride) (rider : Option User) (callerId : Nat) (isAdmin : Bool)
        (newStatus : RideStatus) (t : Nat),
      newStatus ≠ .pending →
      (ride.driver = some callerId ∨ ride.rider = callerId ∨ isAdmin = true) →
      ∃ r' u', updateRideStatus ride rider callerId isAdmin newStatus t = .ok (r', u') ∧
        r'.status = newStatus) ∧
    (∀ (ride : Ride) (callerId : Nat) (isAdmin : Bool) (reason : Option String) (t : Nat),
      (ride.rider = callerId ∨ ride.driver = some callerId ∨ isAdmin = true) →
      ride.status = .completed →
      cancelRide ride callerId isAdmin reason t =
        .error (.badRequest "Cannot cancel a completed ride")) := by
  constructor
  · intro ride rider callerId isAdmin newStatus t hns hauth
    unfold updateRideStatus
    rw [if_neg hns, if_neg (not_not_intro hauth)]
    refine ⟨_, _, rfl, ?_⟩
    dsimp only
    split_ifs <;> rfl
  · intro ride callerId isAdmin reason t hauth hdone
    unfold cancelRide
    rw [if_neg (not_not_intro hauth), if_pos hdone]

/-- A cancelled ride used by the C2 witness. -/
def rideGone : Ride := { baseRide 42 1 with status := .cancelled, cancelledAt := some 2 }

/-- Witness for C2_no_transition_validation: the rider moves a cancelled ride
to in_progress, and cancelling a completed ride fails with the specific
cannot-cancel error. -/
theorem C2_no_transition_validation_witness :
    (∃ r' u', updateRideStatus rideGone (some riderU) 1 false .in_progress 8 = .ok (r', u') ∧
      r'.status = .in_progress) ∧
    cancelRide rideDone 1 false none 8 =
      .error (.badRequest "Cannot cancel a completed ride") :=
  ⟨C2_no_transition_validation.1 rideGone (some riderU) 1 false .in_progress 8
      (by decide) (Or.inr (Or.inl rfl)),
   C2_no_transition_validation.2 rideDone 1 false none 8 (Or.inl rfl) rfl⟩

/-! ## Claim C4: loyalty on completion -/

theorem creditPoints_eq {u : User} {l : Loyalty} (hl : u.loyalty = some l)
    (r : Ride) (t : Nat) :
    creditPoints u r t = { u with loyalty := some { l with
      points := l.points + (loyaltyAward r : ℚ), lastActivity := some t } } := by
  unfold creditPoints
  rw [hl]

/-- An accepted ride with fare 100, not yet completed. -/
def rideFare100 : Ride :=
  { baseRide 51 1 with driver := some 9, status := .accepted, fare := 100 }

/-- Claim C4 (counterexample): when rider 1 completes ride 51 (fare 100), the
handler adds floor(100/10)*10 = 100 loyalty points but leaves totalSpent at 0
and the tier at bronze — the claimed spend increase by the fare (0 to 100) and
tier recomputation never happen, because the completion block touches only
points and lastActivity and the awardLoyaltyPoints helper is never called.
When the driver (worker 9) performs the same completion, the rider document is
not touched at all, so not even the points are awarded. -/
theorem C4_counterexample :
    (∃ r' u' l',
      updateRideStatus rideFare100 (some riderU) 1 false .completed 7 = .ok (r', some u') ∧
      u'.loyalty = some l' ∧
      l'.points = 100 ∧ l'.totalSpent = 0 ∧ l'.tier = .bronze) ∧
    (0 : ℚ) ≠ 0 + rideFare100.fare ∧
    updateRideStatus rideFare100 (some riderU) 9 false .completed 7 =
      .ok ({ rideFare100 with status := .completed, completedAt := some 7 }, some riderU) := by
  refine ⟨⟨_, _, _, rfl, rfl, ?_, rfl, rfl⟩, ?_, rfl⟩
  · show (0 : ℚ) + (loyaltyAward rideFare100 : ℚ) = 100
    norm_num [loyaltyAward, fareUsed, rideFare100, baseRide]
  · norm_num [rideFare100, baseRide]

/-- Claim C4 (amended): on a ride's first entry into completed through an
update-status call made by the requester, the requester's loyalty points grow
by exactly floor(fare / 10) * 10 and lastActivity is stamped, while totalSpent
and the tier keep their previous values — the spend/tier recomputation of the
awardLoyaltyPoints helper is not invoked from the completion path.  When the
assigned worker (not the requester) performs the same first completion, the
requester's user document is returned unchanged: no points at all. -/
theorem C4_first_completion_award (ride : Ride) (u : User) (l : Loyalty) (t : Nat)
    (hdone : ride.completedAt = none) (hl : u.loyalty = some l) :
    updateRideStatus ride (some u) ride.rider false .completed t =
      .ok ({ ride with status := .completed, completedAt := some t },
        some { u with loyalty := some { l with
          points := l.points + (loyaltyAward ride : ℚ),
          lastActivity := some t } }) ∧
    (∀ callerId, callerId ≠ ride.rider → ride.driver = some callerId →
      updateRideStatus ride (some u) callerId false .completed t =
        .ok ({ ride with status := .completed, completedAt := some t }, some u)) := by
  constructor
  · unfold updateRideStatus
    rw [if_neg (by decide), if_neg (not_not_intro (Or.inr (Or.inl rfl)))]
    simp [hdone, creditPoints_eq hl]
  · intro callerId hne hdrv
    have hir : ¬ ride.rider = callerId := fun h => hne h.symm
    unfold updateRideStatus
    rw [if_neg (by decide), if_neg (not_not_intro (Or.inl hdrv))]
    simp [hdone, hir]

/-- Witness for C4_first_completion_award at ride 51 / rider 1 / worker 9. -/
theorem C4_first_completion_award_witness :
    updateRideStatus rideFare100 (some riderU) rideFare100.rider false .completed 7 =
      .ok ({ rideFare100 with status := .completed, completedAt := some 7 },
        some { riderU with loyalty := some { riderLoyalty with
          points := riderLoyalty.points + (loyaltyAward rideFare100 : ℚ),
          lastActivity := some 7 } }) ∧
    updateRideStatus rideFare100 (some riderU) 9 false .completed 7 =
      .ok ({ rideFare100 with status := .completed, completedAt := some 7 }, some riderU) :=
  ⟨(C4_first_completion_award rideFare100 riderU riderLoyalty 7 rfl rfl).1,
   (C4_first_completion_award rideFare100 riderU riderLoyalty 7 rfl rfl).2 9 (by decide) rfl⟩

/-! ## Claim C7: idempotent terminal update -/

/-- Claim C7: repeating the terminal update-status call with the same terminal
status is idempotent in its side effects: starting from a ride not yet
terminal-stamped, the first call sets the matching terminal timestamp to its
own clock and (for completed, when the caller is the rider) applies the
loyalty credit exactly once; the second call with the same status returns
precisely the same ride and user documents — no new timestamp, no second
award, whatever clock t2 it runs at. -/
theorem C7_terminal_update_idempotent (ride : Ride) (rider : Option User)
    (callerId : Nat) (isAdmin : Bool) (s : RideStatus) (t1 t2 : Nat)
    (hs : s = .completed ∨ s = .cancelled)
    (hauth : ride.driver = some callerId ∨ ride.rider = callerId ∨ isAdmin = true)
    (hc : ride.completedAt = none) (hx : ride.cancelledAt = none) :
    ∃ r1 u1, updateRideStatus ride rider callerId isAdmin s t1 = .ok (r1, u1) ∧
      updateRideStatus r1 u1 callerId isAdmin s t2 = .ok (r1, u1) ∧
      (s = .completed → r1.completedAt = some t1) ∧
      (s = .cancelled → r1.cancelledAt = some t1) ∧
      (s = .completed → ride.rider = callerId →
        u1 = rider.map fun u => creditPoints u ride t1) := by
  rcases hs with rfl | rfl
  · by_cases hr : ride.rider = callerId
    · refine ⟨{ ride with status := .completed, completedAt := some t1 },
        rider.map (fun u => creditPoints u ride t1), ?_, ?_, fun _ => rfl,
        fun h => absurd h (by decide), fun _ _ => rfl⟩
      · unfold updateRideStatus
        rw [if_neg (by decide), if_neg (not_not_intro hauth)]
        simp [hc, hr]
      · unfold updateRideStatus
        rw [if_neg (by decide), if_neg (not_not_intro hauth)]
        simp
    · refine ⟨{ ride with status := .completed, completedAt := some t1 },
        rider, ?_, ?_, fun _ => rfl,
        fun h => absurd h (by decide), fun _ h => absurd h hr⟩
      · unfold updateRideStatus
        rw [if_neg (by decide), if_neg (not_not_intro hauth)]
        simp [hc, hr]
      · unfold updateRideStatus
        rw [if_neg (by decide), if_neg (not_not_intro hauth)]
        simp
  · refine ⟨{ ride with status := .cancelled, cancelledAt := some t1 },
      rider, ?_, ?_, fun h => absurd h (by decide), fun _ => rfl,
      fun h => absurd h (by decide)⟩
    · unfold updateRideStatus
      rw [if_neg (by decide), if_neg (not_not_intro hauth)]
      simp [hx]
    · unfold updateRideStatus
      rw [if_neg (by decide), if_neg (not_not_intro hauth)]
      simp

/-- An in-progress ride used by the C7 witness. -/
def rideW7 : Ride := { baseRide 61 1 with driver := some 9, status := .in_progress }

/-- Witness for C7_terminal_update_idempotent: rider 1 completes ride 61 at
clock 5 and repeats the call at clock 6. -/
theorem C7_terminal_update_idempotent_witness :
    ∃ r1 u1, updateRideStatus rideW7 (some riderU) 1 false .completed 5 = .ok (r1, u1) ∧
      updateRideStatus r1 u1 1 false .completed 6 = .ok (r1, u1) ∧
      (RideStatus.completed = .completed → r1.completedAt = some 5) ∧
      (RideStatus.completed = .cancelled → r1.cancelledAt = some 5) ∧
      (RideStatus.completed = .completed → rideW7.rider = 1 →
        u1 = (some riderU).map fun u => creditPoints u rideW7 5) :=
  C7_terminal_update_idempotent rideW7 (some riderU) 1 false .completed 5 6
    (Or.inl rfl) (Or.inr (Or.inl rfl)) rfl rfl

/-! ## PUT /api/rides/:id/rate (part_012) and the rating/loyalty utilities -/

/-- calculateAverageRating from the rating utilities (part_007): arithmetic
mean of the valid ratings, rounded to 1 decimal.  The rate handler below does
not call it; it is embedded because the spec attributes its 1-decimal rounding
to the stored average. -/
def calculateAverageRating (ratings : List ℚ) : ℚ :=
  let valid := ratings.filter fun r => decide (0 ≤ r) && decide (r ≤ 5)
  if valid.length = 0 then 0
  else round1 (valid.sum / (valid.length : ℚ))

/-- calculateTier from src/routes/security.js: fixed spend thresholds
bronze 0 / silver 1000 / gold 5000 / platinum 10000. -/
def calculateTier (totalSpent : ℚ) : Tier :=
  if totalSpent ≥ 10000 then .platinum
  else if totalSpent ≥ 5000 then .gold
  else if totalSpent ≥ 1000 then .silver
  else .bronze

/-- awardLoyaltyPoints from src/routes/security.js: floor(amount) points at
1 point per rand, cumulative spend increased by the amount, tier recomputed
from the thresholds.  The module exports it, but no completion path in the
repository ever calls it. -/
def awardLoyaltyPoints (u : User) (amount : ℚ) : User :=
  let l := u.loyalty.getD { points := 0, tier := .bronze, totalSpent := 0, lastActivity := none }
  let totalSpent := l.totalSpent + amount
  { u with loyalty := some { l with
      points := l.points + ((⌊amount * 1⌋ : ℤ) : ℚ),
      totalSpent := totalSpent,
      tier := calculateTier totalSpent } }

/-- The Ride.find query of the rate handler: all rides of this driver that are
completed and carry a rider rating. -/
def ratedRidesFor (store : List Ride) (did : Nat) : List Ride :=
  store.filter fun r =>
    decide (r.driver = some did) && decide (r.status = RideStatus.completed) &&
      r.riderStars.isSome

/-- The totalStars accumulator of the rate handler. -/
def ratingSum (rs : List Ride) : ℚ :=
  (rs.map fun r => ((r.riderStars.getD 0 : Nat) : ℚ)).sum

/-- The store after the rate handler saves the rider's stars on the target
ride. -/
def writeStars (store : List Ride) (rideId stars : Nat) : List Ride :=
  store.map fun r => if r.id = rideId then { r with riderStars := some stars } else r

/-- The average the rate handler stores: a full recompute, totalStars divided
by the number of rated completed rides — with no rounding. -/
def recomputedAverage (store : List Ride) (did : Nat) : ℚ :=
  ratingSum (ratedRidesFor store did) / ((ratedRidesFor store did).length : ℚ)

/-- The rate handler: stars validated to 1..5; only the rider may rate; only a
completed ride; a ride whose rating.rider.stars is already truthy is refused
with "Ride already rated"; otherwise the stars are saved and, when the ride
has a driver and the driver document is found, the driver's average rating is
recomputed in full over every completed rated ride in the store. -/
def rateRide (store : List Ride) (rideId callerId stars : Nat)
    (driver : Option User) : Except ApiErr (List Ride × Option User) :=
  if stars < 1 ∨ 5 < stars then .error .validation
  else
    match store.find? fun r => decide (r.id = rideId) with
    | none => .error (.notFound "Ride not found")
    | some ride =>
        if ride.rider ≠ callerId then
          .error (.accessDenied "Only the rider can rate this ride")
        else if ride.status ≠ .completed then
          .error (.badRequest "Can only rate completed rides")
        else if ride.riderStars.getD 0 ≠ 0 then
          .error (.badRequest "Ride already rated")
        else
          let store' := writeStars store rideId stars
          match ride.driver, driver with
          | some did, some d =>
              if 0 < (ratedRidesFor store' did).length then
                .ok (store', some { d with
                  averageRating := some (recomputedAverage store' did) })
              else .ok (store', some d)
          | _, dOpt => .ok (store', dOpt)

/-- Completed 4-star ride for driver 7. -/
def rideR1 : Ride :=
  { baseRide 1 3 with driver := some 7, status := .completed, riderStars := some 4 }

/-- Another completed 4-star ride for driver 7. -/
def rideR2 : Ride :=
  { baseRide 2 4 with driver := some 7, status := .completed, riderStars := some 4 }

/-- Completed, not yet rated ride for driver 7 with rider 5. -/
def rideR3 : Ride :=
  { baseRide 3 5 with driver := some 7, status := .completed }

/-- Driver 7's user document. -/
def driverU7 : User :=
  { id := 7, loyalty := none, emergencyNum := none, policeNum := none,
    trustedContacts := [], averageRating := some 5 }

/-- Claim C5 (counterexample): after ratings 4, 4, 5 the handler stores the
driver's average as exactly 13/3 = 4.333..., the unrounded quotient
totalStars / count; the claim's value, the mean rounded to 1 decimal, is 4.3,
and the stored value differs from it.  The rounding helper
calculateAverageRating exists in the repository but the handler does not use
it. -/
theorem C5_counterexample :
    ∃ store' d',
      rateRide [rideR1, rideR2, rideR3] 3 5 5 (some driverU7) = .ok (store', some d') ∧
      d'.averageRating = some ((13 : ℚ) / 3) ∧
      round1 ((13 : ℚ) / 3) = 43 / 10 ∧ ((13 : ℚ) / 3) ≠ 43 / 10 := by
  refine ⟨_, _, rfl, ?_, ?_, by norm_num⟩
  · norm_num [recomputedAverage, ratingSum, ratedRidesFor, writeStars,
      rideR1, rideR2, rideR3, baseRide, List.filter]
  · unfold round1
    rw [round_eq]
    norm_num

theorem find?_writeStars {store : List Ride} {rideId : Nat} {r : Ride} (stars : Nat)
    (h : store.find? (fun x => decide (x.id = rideId)) = some r) :
    (writeStars store rideId stars).find? (fun x => decide (x.id = rideId)) =
      some { r with riderStars := some stars } := by
  induction store with
  | nil => simp at h
  | cons a as ih =>
      by_cases ha : a.id = rideId
      · rw [List.find?_cons_of_pos _ (by simpa using ha)] at h
        rw [show writeStars (a :: as) rideId stars =
            { a with riderStars := some stars } :: writeStars as rideId stars by
          simp [writeStars, ha]]
        rw [List.find?_cons_of_pos _ (by simpa using ha)]
        rw [(Option.some_inj.mp h)]
      · rw [List.find?_cons_of_neg _ (by simpa using ha)] at h
        rw [show writeStars (a :: as) rideId stars =
            a :: writeStars as rideId stars by simp [writeStars, ha]]
        rw [List.find?_cons_of_neg _ (by simpa using ha)]
        exact ih h

/-- Claim C5 (amended): a first rating by the rider of a completed, unrated
ride succeeds and stores as the driver's average the exact arithmetic mean —
the unrounded quotient of the star total by the count, recomputed in full over
every completed rated ride of that driver in the store; an immediately
repeated rating attempt on the same ride by the same rider is rejected with
the typed "Ride already rated" error, not silently overwritten. -/
theorem C5_once_and_full_recompute (store : List Ride) (rideId callerId stars stars2 did : Nat)
    (r : Ride) (d : User)
    (h1 : 1 ≤ stars) (h2 : stars ≤ 5) (h3 : 1 ≤ stars2) (h4 : stars2 ≤ 5)
    (hfind : store.find? (fun x => decide (x.id = rideId)) = some r)
    (hrider : r.rider = callerId) (hstatus : r.status = .completed)
    (hnew : r.riderStars = none) (hdrv : r.driver = some did) :
    ∃ d', rateRide store rideId callerId stars (some d) =
        .ok (writeStars store rideId stars, some d') ∧
      d'.averageRating = some (recomputedAverage (writeStars store rideId stars) did) ∧
      rateRide (writeStars store rideId stars) rideId callerId stars2 (some d') =
        .error (.badRequest "Ride already rated") := by
  have hid : r.id = rideId := by simpa using List.find?_some hfind
  have hzero : r.riderStars.getD 0 = 0 := by rw [hnew]; rfl
  have hmem' : ({ r with riderStars := some stars } : Ride) ∈
      ratedRidesFor (writeStars store rideId stars) did := by
    refine List.mem_filter.mpr ⟨?_, ?_⟩
    · refine List.mem_map.mpr ⟨r, List.mem_of_find?_eq_some hfind, ?_⟩
      rw [if_pos hid]
    · simp [hdrv, hstatus]
  have hlen : 0 < (ratedRidesFor (writeStars store rideId stars) did).length :=
    List.length_pos.mpr (List.ne_nil_of_mem hmem')
  refine ⟨{ d with averageRating := some (recomputedAverage (writeStars store rideId stars) did) }, ?_, rfl, ?_⟩
  · unfold rateRide
    rw [if_neg (by omega), hfind]
    dsimp only
    rw [if_neg (not_not_intro hrider), if_neg (not_not_intro hstatus),
      if_neg (not_not_intro hzero), hdrv]
    dsimp only
    rw [if_pos hlen]
  · have hfind2 := find?_writeStars stars hfind
    unfold rateRide
    rw [if_neg (by omega), hfind2]
    dsimp only
    rw [if_neg (not_not_intro hrider), if_neg (not_not_intro hstatus),
      if_pos (show (some stars).getD 0 ≠ 0 by simpa using Nat.one_le_iff_ne_zero.mp h1)]

/-- Witness for C5_once_and_full_recompute: rider 5 rates ride 3 with 5 stars,
then tries again with 4 stars. -/
theorem C5_once_and_full_recompute_witness :
    ∃ d', rateRide [rideR1, rideR2, rideR3] 3 5 5 (some driverU7) =
        .ok (writeStars [rideR1, rideR2, rideR3] 3 5, some d') ∧
      d'.averageRating = some (recomputedAverage (writeStars [rideR1, rideR2, rideR3] 3 5) 7) ∧
      rateRide (writeStars [rideR1, rideR2, rideR3] 3 5) 3 5 4 (some d') =
        .error (.badRequest "Ride already rated") :=
  C5_once_and_full_recompute [rideR1, rideR2, rideR3] 3 5 5 4 7 rideR3 driverU7
    (by decide) (by decide) (by decide) (by decide) rfl rfl rfl rfl rfl

/-! ## POST /api/security/sos (src/routes/security.js) -/

/-- JavaScript x || dflt over an optional string: absent or empty falls back. -/
def defaultStr (x : Option String) (dflt : String) : String :=
  match x with
  | some s => if s = "" then dflt else s
  | none => dflt

/-- contactsToNotify as composed by the SOS handler, from the record of the
user who pressed the button (User.findById(req.user.id)): the two emergency
numbers with their 112 / 10111 fallbacks, then the trusted contacts flagged
canTrackTrips. -/
def sosContacts (u : User) : List (String × String) :=
  ("Emergency Services", defaultStr u.emergencyNum "112") ::
  ("Police", defaultStr u.policeNum "10111") ::
  (u.trustedContacts.filter fun tc => tc.canTrackTrips).map fun tc => (tc.name, tc.phone)

/-- The SOS handler: any participant of the ride (rider or assigned driver)
may activate, with no condition on the ride's status; the handler flags the
SOS, stamps its time, stores the request location when one is sent, and
records the notify-list built from the caller's own contacts, each entry
stamped with the same clock.  The ride's status field is never written. -/
def activateSOS (ride : Ride) (callerId : Nat) (callerUser : User)
    (location : Option Location) (t : Nat) : Except ApiErr Ride :=
  if ride.rider = callerId ∨ ride.driver = some callerId then
    .ok { ride with
      sosActivated := true,
      sosActivatedAt := some t,
      sosLocation := (match location with
        | some l => some l
        | none => ride.sosLocation),
      sosContactsNotified := (sosContacts callerUser).map fun c => ⟨c.1, c.2, t⟩ }
  else .error (.accessDenied "Not authorized for this ride")

/-- A completed (terminal) ride between rider 1 and driver 9. -/
def rideSOS : Ride :=
  { baseRide 71 1 with driver := some 9, status := .completed, completedAt := some 4 }

/-- Rider 1's user document, with a trusted contact who can track trips. -/
def riderUserS : User :=
  { id := 1, loyalty := none, emergencyNum := some "0821230000", policeNum := none,
    trustedContacts := [⟨"Thabo", "0715550000", true⟩], averageRating := none }

/-- Driver 9's user document, with no contacts configured. -/
def driverUserS : User :=
  { id := 9, loyalty := none, emergencyNum := none, policeNum := none,
    trustedContacts := [], averageRating := none }

/-- Claim C9 (counterexample): ride 71 is completed — terminal — and the
caller is the driver, yet SOS activation succeeds: the handler never checks
the status.  Moreover the recorded notify-list is built from the caller's
(driver's) record — here only the two default numbers — and differs from the
list the requester's record would give, refuting both the non-terminal
requirement and the requester-contacts composition of the claim. -/
theorem C9_counterexample :
    rideSOS.status = .completed ∧
    activateSOS rideSOS 9 driverUserS none 5 =
      .ok { rideSOS with
        sosActivated := true,
        sosActivatedAt := some 5,
        sosContactsNotified := [⟨"Emergency Services", "112", 5⟩, ⟨"Police", "10111", 5⟩] } ∧
    [NotifiedContact.mk "Emergency Services" "112" 5, ⟨"Police", "10111", 5⟩] ≠
      (sosContacts riderUserS).map fun c => ⟨c.1, c.2, 5⟩ := by
  refine ⟨rfl, rfl, fun h => ?_⟩
  have := congrArg List.length h
  simp [sosContacts, riderUserS, defaultStr, List.filter] at this

/-- Claim C9 (amended): SOS activation succeeds for either trip participant
whatever the ride's status, terminal ones included; on success it flags the
SOS, stamps the clock, records the notify-list composed from the activating
caller's emergency numbers (with their 112 / 10111 fallbacks) plus the
caller's trusted contacts flagged canTrackTrips, each entry carrying the same
notified timestamp, and leaves the status field unchanged; a non-participant
is refused. -/
theorem C9_sos_any_status (ride : Ride) (callerId : Nat) (callerUser : User)
    (location : Option Location) (t : Nat) :
    ((ride.rider = callerId ∨ ride.driver = some callerId) →
      ∃ r', activateSOS ride callerId callerUser location t = .ok r' ∧
        r'.status = ride.status ∧
        r'.sosActivated = true ∧ r'.sosActivatedAt = some t ∧
        r'.sosContactsNotified = ((sosContacts callerUser).map fun c => ⟨c.1, c.2, t⟩)) ∧
    (¬ (ride.rider = callerId ∨ ride.driver = some callerId) →
      activateSOS ride callerId callerUser location t =
        .error (.accessDenied "Not authorized for this ride")) := by
  constructor
  · intro hpart
    unfold activateSOS
    rw [if_pos hpart]
    exact ⟨_, rfl, rfl, rfl, rfl, rfl⟩
  · intro hpart
    unfold activateSOS
    rw [if_neg hpart]

/-- Witness for C9_sos_any_status: rider 1 activates SOS on the completed ride
(participant branch), and stranger 4 is refused (non-participant branch). -/
theorem C9_sos_any_status_witness :
    (∃ r', activateSOS rideSOS 1 riderUserS none 6 = .ok r' ∧
      r'.status = rideSOS.status ∧
      r'.sosActivated = true ∧ r'.sosActivatedAt = some 6 ∧
      r'.sosContactsNotified = ((sosContacts riderUserS).map fun c => ⟨c.1, c.2, 6⟩)) ∧
    activateSOS rideSOS 4 riderUserS none 6 =
      .error (.accessDenied "Not authorized for this ride") :=
  ⟨(C9_sos_any_status rideSOS 1 riderUserS none 6).1 (Or.inl rfl),
   (C9_sos_any_status rideSOS 4 riderUserS none 6).2 (by decide)⟩
